import Mathlib

/-!
Verification of the jitsi-prom-exporter JVB collector
(`src/exporter/jvbCollector.go`) against its natural-language
specification.

Strings are handled through their character lists; Go's `uint64`
arithmetic is modelled as `Nat` with explicit reduction modulo `2 ^ 64`
where the Go code can wrap; `time.Time` / `time.Duration` values are
modelled as `Int` (nanosecond counts, far from the `int64` range in every
scenario of interest).
-/

set_option maxRecDepth 4000
set_option linter.dupNamespace false

/-- The modulus of Go's `uint64` arithmetic. -/
def U64 : Nat := 2 ^ 64

/-- Addition of Go `uint64` values (wraps on overflow). -/
def wadd (a b : Nat) : Nat := (a + b) % U64

/-- Model of `strings.Trim(value, "[]")`: removes every leading and
trailing character that is `[` or `]`. -/
def trimBrackets (s : List Char) : List Char :=
  ((s.dropWhile fun c => c = '[' ∨ c = ']').reverse.dropWhile
    fun c => c = '[' ∨ c = ']').reverse

/-- Model of `strings.Split(s, ",")`: the fields of `s` between commas.
Always returns at least one field (`[[]]` on the empty string), exactly as
Go's `Split` with a non-empty separator. -/
def splitFields : List Char → List (List Char)
  | [] => [[]]
  | c :: cs =>
    match splitFields cs with
    | [] => [[]]
    | f :: fs => if c = ',' then [] :: f :: fs else (c :: f) :: fs

/-- The overflow cutoff of `strconv.ParseUint(·, 10, 64)`:
`maxUint64/10 + 1`, the smallest `n` with `n * 10 > maxUint64`. -/
def parseUintCutoff : Nat := (U64 - 1) / 10 + 1

/-- The digit-accumulation loop of Go's `strconv.ParseUint(s, 10, 64)`,
with accumulator `n`.  Per character: a non-digit is a syntax error and
yields `0`; a digit first checks `n >= cutoff` (the multiply would
overflow) and then whether `n*10 + d` exceeds `maxUint64`, yielding
`maxUint64` on either range error; otherwise it accumulates and
continues.  The caller discards the returned `error`, so only these
result values matter. -/
def parseUintLoop : List Char → Nat → Nat
  | [], n => n
  | c :: cs, n =>
    if c.isDigit then
      if parseUintCutoff ≤ n then U64 - 1
      else if U64 ≤ 10 * n + (c.toNat - 48) then U64 - 1
      else parseUintLoop cs (10 * n + (c.toNat - 48))
    else 0

/-- Model of `vuint, _ := strconv.ParseUint(v, 10, 64)` as used in
`bucketsHelper`: the empty string is a syntax error yielding `0`,
otherwise the digit loop runs from accumulator `0`. -/
def parseUint64 (s : List Char) : Nat :=
  match s with
  | [] => 0
  | _ => parseUintLoop s 0

/-- The parsing phase of `bucketsHelper`: trim the brackets, split on
commas, parse every field as a `uint64` (errors discarded). -/
def parsedCounts (value : List Char) : List Nat :=
  (splitFields (trimBrackets value)).map parseUint64

/-- The inner cumulative loop of `bucketsHelper` at outer index `i`:
`cumulative` starts at `0` and the loop adds `values[j]` for
`j = i, i-1, ..., 0` in `uint64` arithmetic.  The outer loop runs `i`
downward and writes only index `i` after this sum, so every read of
`values[j]`, `j ≤ i`, still sees the original (non-cumulative) entry. -/
def cumulativeAt (vs : List Nat) (i : Nat) : Nat :=
  ((vs.take (i + 1)).reverse).foldl wadd 0

/-- Model of `bucketsHelper(value string) (histogram map[float64]uint64,
sum uint64)`.  The histogram map sends `float64(i)` to the cumulative
count at `i`; since its keys are exactly the indices `0 .. len-1` (each
exactly representable in `float64`), it is modelled as the association
list of `(index, cumulative count)` pairs in index order. -/
def bucketsHelper (value : String) : List (Nat × Nat) × Nat :=
  let values := parsedCounts value.data
  let sum := values.foldl wadd 0
  let vs := values.dropLast
  ((List.range vs.length).map fun i => (i, cumulativeAt vs i), sum)


/-- The `prometheus.ValueType` constants used by the collector. -/
inductive ValueType where
  | gauge
  | counter
  | untyped
deriving DecidableEq

/-- Model of `prometheus.Desc` as built by
`prometheus.NewDesc(name, help, variableLabels, constLabels)`: the parts
of a descriptor the collector's behaviour can observe. -/
structure Desc where
  fqName : String
  help : String
  variableLabels : List String
  constLabels : List (String × String)
deriving DecidableEq

/-- The `metric` struct of `jvbCollector.go`. -/
structure metric where
  name : String
  desc : Desc
  metricType : ValueType
deriving DecidableEq

/-- `newMetric(name, metricType, help, varLabels, constLabels)`. -/
def newMetric (name : String) (metricType : ValueType) (help : String)
    (varLabels : List String) (constLabels : List (String × String)) : metric :=
  ⟨name, ⟨name, help, varLabels, constLabels⟩, metricType⟩

/-- Modelled from the spec: a RawStat is `{name, value}` with an unparsed
textual value.  The Go `Stat` type is unmarshalled by the presence
extension, whose file is outside `src/`; `Collect` reads exactly the
fields `Name` and `Value`. -/
structure Stat where
  Name : String
  Value : String
deriving DecidableEq

/-- Modelled from the spec: the `Stats` payload, an ordered sequence of
raw stats (field `Stats`, as iterated by `Collect`). -/
structure Stats where
  Stats : List Stat
deriving DecidableEq

/-- The `statsSet` struct: one cached snapshot. -/
structure statsSet where
  lastUpdated : Int
  stats : Stats
  jvbIdentifier : String
deriving DecidableEq

/-- The `JvbCollector` struct. -/
structure JvbCollector where
  NamePrefix : String
  Retention : Int
  statsSets : List statsSet
  metrics : List metric
deriving DecidableEq

/-- The catalog appended to `collector.metrics` in `NewJvbCollector`, as
`(unprefixed name, value type, help)` triples in source order.  Every
`newMetric` call site passes `[]string{"jvb_instance"}` as the variable
labels and the shared `app: jitsi` constant labels. -/
def catalogEntries : List (String × ValueType × String) := [
  ("packet_rate_download", .gauge,
    "download packet rate"),
  ("conference_sizes", .untyped,
    "histogram of conference sizes (ie. how many conferences have 5 participants and so on)"),
  ("total_packets_sent_octo", .counter,
    "total number of octo packets sent"),
  ("total_loss_degraded_participant_seconds", .counter,
    "The total number of participant-seconds that are loss-degraded."),
  ("bit_rate_download", .gauge,
    "download rate kbit/s"),
  ("jitter_aggregate", .gauge,
    "Experimental. An average value (in milliseconds) of the jitter calculated for incoming and outgoing streams. This hasn't been tested and it is currently not known whether the values are correct or not."),
  ("total_packets_received", .counter,
    "Total number of packets received"),
  ("rtt_aggregate", .gauge,
    "An average value (in milliseconds) of the RTT across all streams."),
  ("packet_rate_upload", .gauge,
    "Upload packets/s"),
  ("conferences", .gauge,
    "The current number of conferences hosted by the bridge"),
  ("participants", .gauge,
    "The current number of participants."),
  ("total_loss_limited_participant_seconds", .counter,
    "The total number of participant-seconds that are loss-limited."),
  ("largest_conference", .gauge,
    "The current number of participants in the largest conference"),
  ("total_packets_sent", .counter,
    "The total number of packets sent."),
  ("total_data_channel_messages_sent", .counter,
    "The total number of data channel messages sent."),
  ("total_bytes_received_octo", .counter,
    "The total number octo bytes sent."),
  ("threads", .gauge,
    "The current number of threads."),
  ("total_colibri_web_socket_messages_received", .counter,
    "The total number messages received through COLIBRI web sockets."),
  ("videochannels", .gauge,
    "The current number of videochannels."),
  ("total_packets_received_octo", .counter,
    "Total octo packets received."),
  ("total_colibri_web_socket_messages_sent", .counter,
    "The total number messages sent through COLIBRI web sockets."),
  ("total_bytes_sent_octo", .counter,
    "Total octo bytes sent."),
  ("total_data_channel_messages_received", .counter,
    "Total data channel messages received."),
  ("total_conference_seconds", .counter,
    "The sum of the lengths of all completed conferences, in seconds."),
  ("total_bytes_received", .counter,
    "Total bytes received."),
  ("total_loss_controlled_participant_seconds", .counter,
    "The total number of participant-seconds that are loss-controlled."),
  ("total_partially_failed_conferences", .counter,
    "The total number of partially failed conferences on the bridge. A conference is marked as partially failed when some of its channels has failed. A channel is marked as failed if it had no payload activity."),
  ("bit_rate_upload", .gauge,
    "Current upload rate in kbit/s."),
  ("total_conferences_completed", .counter,
    "Total conferences completed."),
  ("total_bytes_sent", .counter,
    "The number of total bytes sent."),
  ("total_failed_conferences", .counter,
    "The total number of failed conferences on the bridge. A conference is marked as failed when all of its channels have failed. A channel is marked as failed if it had no payload activity."),
  ("conferences_by_audio_senders", .untyped,
    "Histogram of conferences by number of audio senders (ie. how many conferences have 5 audio senders and so on)"),
  ("conferences_by_video_senders", .untyped,
    "Histogram of conferences by number of video senders (ie. how many conferences have 5 video senders and so on)"),
  ("dtls_failed_endpoints", .gauge,
    "The number of failed dtls endpoints on the bridge. An endpoint has failed DTLS if it has completed ICE but not."),
  ("endpoints_sending_audio", .gauge,
    "The number of endpoints which are sending audio."),
  ("endpoints_sending_video", .gauge,
    "The number of endpoints which are sending video."),
  ("inactive_conferences", .gauge,
    "The number of inactive conferences."),
  ("inactive_endpoints", .gauge,
    "The number of inactive endpoints."),
  ("incoming_loss", .gauge,
    "The percentage of incoming packets which are lost."),
  ("muc_clients_configured", .gauge,
    "The number of configured muc clients."),
  ("muc_clients_connected", .gauge,
    "The number of connected muc clients."),
  ("mucs_configured", .gauge,
    "The number of configured mucs."),
  ("mucs_joined", .gauge,
    "The number of joined mucs."),
  ("num_eps_no_msg_transport_after_delay", .gauge,
    "The number of endpoints with no message transport after delay."),
  ("octo_conferences", .gauge,
    "The number of conferences using Octo"),
  ("octo_endpoints", .gauge,
    "The number of endpoints using Octo"),
  ("octo_receive_bitrate", .gauge,
    "The bitrate of data being received from Octo"),
  ("octo_receive_packet_rate", .gauge,
    "The rate of packets being received from Octo"),
  ("octo_send_bitrate", .gauge,
    "The bitrate of data being send to Octo"),
  ("octo_send_packet_rate", .gauge,
    "The rate of packets being send to Octo"),
  ("outgoing_loss", .gauge,
    "The percentage of outgoing packets which are lost."),
  ("overall_loss", .gauge,
    "The overall percentage of packets which are lost."),
  ("p2p_conferences", .gauge,
    "The number of P2P conferences."),
  ("receive_only_endpoints", .gauge,
    "The number of endpoints which are sending neither audio nor video and aren't inactive."),
  ("stress_level", .gauge,
    "The stress level."),
  ("total_conferences_created", .counter,
    "The total number of conferences created."),
  ("total_dominant_speaker_changes", .counter,
    "The total number of dominant speaker changes."),
  ("total_ice_failed", .counter,
    "The total number of failed ICE connections."),
  ("total_ice_succeeded", .counter,
    "The total number of succeeded ICE connections."),
  ("total_ice_succeeded_relayed", .counter,
    "The total number of succeeded ICE connections which are relayed."),
  ("total_packets_dropped_octo", .counter,
    "The total number of packets dropped to or from Octo."),
  ("total_participants", .counter,
    "The total number of participants.")
]

/-- `NewJvbCollector(namespace, subsystem string, retention time.Duration)`. -/
def NewJvbCollector (nspace subsystem : String) (retention : Int) : JvbCollector :=
  { NamePrefix :=
      (if subsystem ≠ "" then subsystem ++ "_" else "") ++
        (if nspace ≠ "" then nspace ++ "_" else "")
    Retention := retention
    statsSets := []
    metrics := catalogEntries.map fun e =>
      newMetric
        (((if subsystem ≠ "" then subsystem ++ "_" else "") ++
          (if nspace ≠ "" then nspace ++ "_" else "")) ++ e.1)
        e.2.1 e.2.2 ["jvb_instance"] [("app", "jitsi")] }

/-- The metrics sent to the collect channel: `prometheus.NewConstMetric`
and `prometheus.NewConstHistogram` values.  The label pairs record the
descriptor's variable labels zipped with the supplied label values.  A Go
histogram's `sum` argument is `float64(sum)`; it is recorded here as the
pre-conversion `uint64` value (no claim observes the float conversion
itself). -/
inductive PromMetric where
  | const (descName : String) (metricType : ValueType) (value : ℚ)
      (labelPairs : List (String × String))
  | hist (descName : String) (count : Nat) (sum : Nat)
      (buckets : List (Nat × Nat)) (labelPairs : List (String × String))
deriving DecidableEq

/-- The label pairs carried by an output metric. -/
def PromMetric.labels : PromMetric → List (String × String)
  | .const _ _ _ lp => lp
  | .hist _ _ _ _ lp => lp

/-- `prometheus.NewConstMetric(desc, metricType, value, labelValues...)`:
errors (and is then skipped by `Collect`) when the label values do not
match the descriptor's variable labels. -/
def NewConstMetric (d : Desc) (metricType : ValueType) (value : ℚ)
    (labelValues : List String) : Option PromMetric :=
  if d.variableLabels.length = labelValues.length then
    some (.const d.fqName metricType value (d.variableLabels.zip labelValues))
  else none

/-- `prometheus.NewConstHistogram(desc, count, sum, buckets,
labelValues...)`, with the same label-cardinality failure. -/
def NewConstHistogram (d : Desc) (count : Nat) (sum : Nat)
    (buckets : List (Nat × Nat)) (labelValues : List String) : Option PromMetric :=
  if d.variableLabels.length = labelValues.length then
    some (.hist d.fqName count sum buckets (d.variableLabels.zip labelValues))
  else none

/-- The stat names special-cased as histograms in `Collect`. -/
def isHistogramName (name : String) : Bool :=
  name == "conference_sizes" || name == "conferences_by_audio_senders" ||
    name == "conferences_by_video_senders"

/-- The innermost loop body of `Collect` for one raw stat and one catalog
entry: the metrics sent for this pair (one, or none after a reported
failure).  `pf` stands for `strconv.ParseFloat(·, 64)`; no claim depends
on its exact parsing rules, so every theorem holds for any such
function. -/
def emitOne (c : JvbCollector) (pf : String → Option ℚ) (jvbIdentifier : String)
    (stat : Stat) (m : metric) : List PromMetric :=
  if m.name = c.NamePrefix ++ stat.Name then
    if isHistogramName stat.Name then
      match NewConstHistogram m.desc (bucketsHelper stat.Value).2
          (bucketsHelper stat.Value).2 (bucketsHelper stat.Value).1 [jvbIdentifier] with
      | some pm => [pm]
      | none => []
    else
      match pf stat.Value with
      | none => []
      | some value =>
        match NewConstMetric m.desc m.metricType value [jvbIdentifier] with
        | some pm => [pm]
        | none => []
  else []

/-- The metrics `Collect` sends for one raw stat of a snapshot (the loop
over `c.metrics`). -/
def emitForStat (c : JvbCollector) (pf : String → Option ℚ)
    (jvbIdentifier : String) (stat : Stat) : List PromMetric :=
  c.metrics.flatMap (emitOne c pf jvbIdentifier stat)

/-- The metrics `Collect` sends for one fresh snapshot (the loop over
`set.stats.Stats`). -/
def collectSet (c : JvbCollector) (pf : String → Option ℚ)
    (set : statsSet) : List PromMetric :=
  set.stats.Stats.flatMap (emitForStat c pf set.jvbIdentifier)

/-- The snapshots `Collect` considers at time `now`: those with
`time.Since(set.lastUpdated) <= c.Retention` (the spec's
`SnapshotsFresherThan`). -/
def SnapshotsFresherThan (c : JvbCollector) (now : Int) : List statsSet :=
  c.statsSets.filter fun set => decide (now - set.lastUpdated ≤ c.Retention)

/-- `Collect`: the sequence of metrics sent to the channel, in send
order.  `now` is the evaluation time of `time.Since`. -/
def Collect (c : JvbCollector) (now : Int) (pf : String → Option ℚ) :
    List PromMetric :=
  c.statsSets.flatMap fun set =>
    if now - set.lastUpdated ≤ c.Retention then collectSet c pf set else []

/-- `Collect` as a state transformer: the method body reads
`c.statsSets` and `c.metrics` and writes only to the channel, so the
collector state it leaves behind is `c` itself. -/
def CollectStep (c : JvbCollector) (now : Int) (pf : String → Option ℚ) :
    JvbCollector × List PromMetric :=
  (c, Collect c now pf)

/-- The loop of `Update`: overwrite `lastUpdated` and `stats` of the
first `statsSet` whose `jvbIdentifier` matches, else append a new one. -/
def updateSets : List statsSet → Int → String → Stats → List statsSet
  | [], now, identifier, stats => [⟨now, stats, identifier⟩]
  | s :: rest, now, identifier, stats =>
    if s.jvbIdentifier = identifier then ⟨now, stats, identifier⟩ :: rest
    else s :: updateSets rest now identifier stats

/-- `Update(identifier string, stats *Stats)`; `now` is the value of
`time.Now()` during the call. -/
def Update (c : JvbCollector) (now : Int) (identifier : String) (stats : Stats) :
    JvbCollector :=
  { c with statsSets := updateSets c.statsSets now identifier stats }

/-- A sequence of `Update` calls, each as `(time, identifier, stats)`. -/
def runUpdates (c : JvbCollector) (ops : List (Int × String × Stats)) :
    JvbCollector :=
  ops.foldl (fun acc op => Update acc op.1 op.2.1 op.2.2) c

/-- A concrete instantiation of the `ParseFloat` parameter, used only by
witness scenarios: it accepts plain non-empty digit strings (which Go's
`ParseFloat` parses to the same value) and rejects everything else. -/
def samplePF (s : String) : Option ℚ :=
  if s.data ≠ [] ∧ s.data.all Char.isDigit then
    some ((s.data.foldl (fun a c => a * 10 + (c.toNat - 48)) 0 : Nat) : ℚ)
  else none

/-! ## Arithmetic of the bucket transform -/

/-- Folding `wadd` from a reduced accumulator computes the wrapped sum. -/
lemma foldl_wadd_eq (l : List Nat) (a : Nat) :
    l.foldl wadd (a % U64) = (a + l.sum) % U64 := by
  induction l generalizing a with
  | nil => simp
  | cons x xs ih =>
    have hstep : wadd (a % U64) x = (a + x) % U64 := by
      simp [wadd, Nat.mod_add_mod]
    simp only [List.foldl_cons, List.sum_cons, hstep]
    rw [ih (a + x)]
    ring_nf

/-- The `uint64` sum loop of `bucketsHelper` computes the sum mod `2^64`. -/
lemma foldl_wadd_zero (l : List Nat) : l.foldl wadd 0 = l.sum % U64 := by
  have h := foldl_wadd_eq l 0
  simpa using h

/-- The inner cumulative loop computes the wrapped prefix sum. -/
lemma cumulativeAt_eq (vs : List Nat) (i : Nat) :
    cumulativeAt vs i = (vs.take (i + 1)).sum % U64 := by
  unfold cumulativeAt
  rw [foldl_wadd_zero, List.sum_reverse]

/-- The total reported by `bucketsHelper` is the wrapped sum of all
parsed counts. -/
lemma bucketsHelper_sum (value : String) :
    (bucketsHelper value).2 = (parsedCounts value.data).sum % U64 := by
  simp [bucketsHelper, foldl_wadd_zero]

/-- `splitFields` always yields at least one field, like Go's
`strings.Split` with a non-empty separator. -/
lemma splitFields_ne_nil (s : List Char) : splitFields s ≠ [] := by
  cases s with
  | nil => simp [splitFields]
  | cons c cs =>
    unfold splitFields
    cases h : splitFields cs with
    | nil => simp
    | cons f fs =>
      by_cases hc : c = ','
      · simp [hc]
      · simp [hc]

/-! ## Characterization of the lenient `ParseUint` -/

/-- The numeric value of a digit string (decimal, from the left),
starting from accumulator `n`. -/
def valFrom (n : Nat) (l : List Char) : Nat :=
  l.foldl (fun a c => 10 * a + (c.toNat - 48)) n

/-- The numeric value of a digit string. -/
def digitsVal (l : List Char) : Nat := valFrom 0 l

/-- Definition written from the amended claim's words, to be compared
with the source translation `parseUint64`: a field whose leading digits
already exceed the `uint64` range contributes `2^64 - 1` (Go's range
saturation); a non-empty all-digit field in range contributes its value;
every other field (empty, or hitting a non-digit first) contributes 0. -/
def parseUintSpec (l : List Char) : Nat :=
  let p := l.takeWhile Char.isDigit
  if U64 ≤ digitsVal p then U64 - 1
  else if l ≠ [] ∧ p = l then digitsVal p
  else 0

lemma valFrom_cons (n : Nat) (c : Char) (l : List Char) :
    valFrom n (c :: l) = valFrom (10 * n + (c.toNat - 48)) l := rfl

lemma le_valFrom (n : Nat) (l : List Char) : n ≤ valFrom n l := by
  induction l generalizing n with
  | nil => exact Nat.le_refl n
  | cons c cs ih =>
    rw [valFrom_cons]
    exact le_trans (by omega) (ih (10 * n + (c.toNat - 48)))

lemma ten_mul_cutoff : U64 ≤ 10 * parseUintCutoff := by
  norm_num [U64, parseUintCutoff]

/-- The loop of `ParseUint`, characterized: starting from an in-range
accumulator, it saturates to `maxUint64` as soon as the accumulated value
would leave the `uint64` range, returns the accumulated value if the
whole remaining input is digits, and reports a syntax error (value `0`)
otherwise. -/
lemma parseUintLoop_eq (l : List Char) (n : Nat) (h : n < U64) :
    parseUintLoop l n =
      if U64 ≤ valFrom n (l.takeWhile Char.isDigit) then U64 - 1
      else if l.takeWhile Char.isDigit = l then valFrom n l
      else 0 := by
  induction l generalizing n with
  | nil =>
    simp [parseUintLoop, valFrom, Nat.not_le.mpr h]
  | cons c cs ih =>
    by_cases hd : c.isDigit
    · rw [List.takeWhile_cons_of_pos (by simpa using hd)]
      rw [valFrom_cons]
      unfold parseUintLoop
      rw [if_pos hd]
      by_cases hcut : parseUintCutoff ≤ n
      · rw [if_pos hcut]
        have hbig : U64 ≤ valFrom (10 * n + (c.toNat - 48)) (cs.takeWhile Char.isDigit) := by
          calc U64 ≤ 10 * parseUintCutoff := ten_mul_cutoff
            _ ≤ 10 * n + (c.toNat - 48) := by omega
            _ ≤ _ := le_valFrom _ _
        rw [if_pos hbig]
      · rw [if_neg hcut]
        by_cases hov : U64 ≤ 10 * n + (c.toNat - 48)
        · rw [if_pos hov]
          have hbig : U64 ≤ valFrom (10 * n + (c.toNat - 48)) (cs.takeWhile Char.isDigit) :=
            le_trans hov (le_valFrom _ _)
          rw [if_pos hbig]
        · rw [if_neg hov]
          rw [ih (10 * n + (c.toNat - 48)) (Nat.not_le.mp hov)]
          rw [valFrom_cons]
          simp only [List.cons.injEq, true_and]
    · rw [List.takeWhile_cons_of_neg (by simpa using hd)]
      unfold parseUintLoop
      rw [if_neg hd]
      rw [if_neg (show ¬ U64 ≤ valFrom n [] by simpa [valFrom] using Nat.not_le.mpr h)]
      rw [if_neg (by simp)]

/-- The source translation of the lenient `ParseUint` agrees with its
characterization. -/
lemma parseUint64_eq_spec (l : List Char) : parseUint64 l = parseUintSpec l := by
  cases l with
  | nil => decide
  | cons c cs =>
    have h0 : (0 : Nat) < U64 := by norm_num [U64]
    rw [show parseUint64 (c :: cs) = parseUintLoop (c :: cs) 0 from rfl]
    rw [parseUintLoop_eq (c :: cs) 0 h0]
    simp only [parseUintSpec, digitsVal, ne_eq, reduceCtorEq, not_false_eq_true, true_and]
    by_cases h2 : (c :: cs).takeWhile Char.isDigit = c :: cs
    · rw [h2]
    · simp [h2]

/-- Every parsed count is an actual `uint64` value. -/
lemma parseUint64_lt (l : List Char) : parseUint64 l < U64 := by
  have hU : 0 < U64 := by norm_num [U64]
  rw [parseUint64_eq_spec]
  by_cases h1 : U64 ≤ digitsVal (l.takeWhile Char.isDigit)
  · simp only [parseUintSpec, if_pos h1]
    omega
  · simp only [parseUintSpec, if_neg h1]
    by_cases h2 : l ≠ [] ∧ l.takeWhile Char.isDigit = l
    · rw [if_pos h2]
      omega
    · rw [if_neg h2]
      omega

/-! ## Claims about the bucket transform -/

/-- Claim C1 (amended): for every raw histogram value the bucket
transform drops the last parsed count and emits, for every index `i` in
`0..N-1`, the cumulative bucket `(i, sum of the parsed counts at indices
0..i, reduced mod 2^64)` — the reduction is Go's `uint64` addition and
is the identity whenever the prefix sums stay below `2^64`; in
particular `Transform("[2,3,5,1]")` yields explicit buckets `[2,5,10]`
and `totalObservations = 11`. -/
theorem bucketsHelper_cumulative_from_left :
    (∀ value : String,
      (bucketsHelper value).1 =
        (List.range ((parsedCounts value.data).length - 1)).map fun i =>
          (i, ((parsedCounts value.data).take (i + 1)).sum % U64)) ∧
    bucketsHelper "[2,3,5,1]" = ([(0, 2), (1, 5), (2, 10)], 11) := by
  constructor
  · intro value
    show (List.range (parsedCounts value.data).dropLast.length).map _ = _
    rw [List.length_dropLast]
    apply List.map_congr_left
    intro i hi
    rw [List.mem_range] at hi
    simp only [Prod.mk.injEq, true_and]
    rw [cumulativeAt_eq, List.dropLast_eq_take, List.take_take,
      Nat.min_eq_left (by omega)]
  · decide

/-- Claim C1 fails as literally stated: on
`"[18446744073709551615,1,0]"` the parsed counts are `[2^64-1, 1, 0]`
and the emitted cumulative bucket at index 1 is `0` (the `uint64` sum
wrapped), not the sum `2^64-1 + 1` of the parsed counts at indices
0..1. -/
theorem bucketsHelper_cumulative_overflow_cex :
    parsedCounts "[18446744073709551615,1,0]".data =
        [18446744073709551615, 1, 0] ∧
    (bucketsHelper "[18446744073709551615,1,0]").1 =
        [(0, 18446744073709551615), (1, 0)] ∧
    (0 : Nat) ≠ 18446744073709551615 + 1 := by decide

/-- Claim C10: the bucket transform is total: on every input string the
split yields at least one field, so dropping the overflow bucket never
underflows, and the transform emits exactly
`(number of parsed counts) - 1` cumulative buckets; the empty string
yields `([], 0)`. -/
theorem bucketsHelper_totality :
    (∀ value : String, 1 ≤ (parsedCounts value.data).length ∧
      (bucketsHelper value).1.length = (parsedCounts value.data).length - 1) ∧
    bucketsHelper "" = ([], 0) := by
  constructor
  · intro value
    constructor
    · have h : parsedCounts value.data ≠ [] := by
        simp [parsedCounts, splitFields_ne_nil (trimBrackets value.data)]
      exact List.length_pos.mpr h
    · show ((List.range (parsedCounts value.data).dropLast.length).map _).length = _
      rw [List.length_map, List.length_range, List.length_dropLast]
  · decide

/-- Claim C7 (amended): a single-field (hence also empty-bracket) value
yields no explicit buckets and a total equal to the one parsed value;
the per-field parse is lenient and never fails the transform: a field
contributes `0` when it is empty or hits a non-digit character before
its accumulated value leaves the `uint64` range, contributes `2^64 - 1`
when its leading digits overflow that range (Go `ParseUint` range
saturation), and otherwise contributes its value (the rules stated by
`parseUintSpec`); in particular `Transform("[0]")` yields zero explicit
buckets and `totalObservations = 0`. -/
theorem bucketsHelper_lenient_parsing :
    (∀ value : String, (parsedCounts value.data).length = 1 →
      (bucketsHelper value).1 = [] ∧
      (bucketsHelper value).2 = (parsedCounts value.data).sum) ∧
    (∀ l : List Char, parseUint64 l = parseUintSpec l) ∧
    bucketsHelper "[0]" = ([], 0) := by
  refine ⟨?_, parseUint64_eq_spec, by decide⟩
  intro value h
  obtain ⟨v, hv⟩ := List.length_eq_one.mp h
  have hvlt : v < U64 := by
    have hm : v ∈ parsedCounts value.data := by
      rw [hv]
      exact List.mem_singleton_self v
    obtain ⟨f, _, hf⟩ := List.mem_map.mp (by simpa [parsedCounts] using hm)
    rw [← hf]
    exact parseUint64_lt f
  constructor
  · simp [bucketsHelper, hv]
  · simp [bucketsHelper, hv, wadd, Nat.mod_eq_of_lt hvlt]

/-- Witness for claim C7's single-field case at `"[7]"`. -/
theorem bucketsHelper_lenient_parsing_witness :
    (bucketsHelper "[7]").1 = [] ∧
    (bucketsHelper "[7]").2 = (parsedCounts "[7]".data).sum :=
  bucketsHelper_lenient_parsing.1 "[7]" (by decide)

/-- Claim C7 fails as literally stated: the field `18446744073709551616`
(that is `2^64`) fails to parse as a `uint64` (a Go range error), yet it
contributes `2^64 - 1` rather than `0`: the transform's total for
`"[18446744073709551616]"` is `2^64 - 1` where the claim requires
`0`. -/
theorem parseUint_range_saturation_cex :
    parseUint64 "18446744073709551616".data = 18446744073709551615 ∧
    (bucketsHelper "[18446744073709551616]").2 = 18446744073709551615 ∧
    (18446744073709551615 : Nat) ≠ 0 := by decide

/-- Claim C6 (amended): `totalObservations` is the sum of all `N+1`
parsed counts (including the dropped overflow bucket) reduced mod
`2^64` — Go `uint64` addition, the exact sum whenever it fits in 64
bits — and every histogram metric emitted by `Collect` uses this same
total both as its observation count and as its sum field (Go passes the
same `sum` variable twice, the second time as `float64(sum)`). -/
theorem collect_histogram_total_and_sum :
    (∀ value : String,
      (bucketsHelper value).2 = (parsedCounts value.data).sum % U64) ∧
    (∀ (c : JvbCollector) (pf : String → Option ℚ) (jvbIdentifier : String)
      (stat : Stat) (m : metric) (pm : PromMetric),
      isHistogramName stat.Name = true → pm ∈ emitOne c pf jvbIdentifier stat m →
      pm = PromMetric.hist m.desc.fqName (bucketsHelper stat.Value).2
        (bucketsHelper stat.Value).2 (bucketsHelper stat.Value).1
        (m.desc.variableLabels.zip [jvbIdentifier])) := by
  refine ⟨bucketsHelper_sum, ?_⟩
  intro c pf jvbIdentifier stat m pm hh hm
  unfold emitOne at hm
  by_cases h1 : m.name = c.NamePrefix ++ stat.Name
  · rw [if_pos h1, hh] at hm
    rw [if_pos rfl] at hm
    unfold NewConstHistogram at hm
    by_cases h2 : m.desc.variableLabels.length = 1
    · simp [h2] at hm
      exact hm
    · simp [h2] at hm
  · simp [h1] at hm

/-- Witness for claim C6's emission shape on `conference_sizes` with raw
value `"[2,3,5,1]"`. -/
theorem collect_histogram_total_and_sum_witness :
    PromMetric.hist "conference_sizes" 11 11 [(0, 2), (1, 5), (2, 10)]
        [("jvb_instance", "jvb-1")] =
      PromMetric.hist
        (newMetric "conference_sizes" .untyped "h" ["jvb_instance"]
          [("app", "jitsi")]).desc.fqName
        (bucketsHelper "[2,3,5,1]").2 (bucketsHelper "[2,3,5,1]").2
        (bucketsHelper "[2,3,5,1]").1
        ((newMetric "conference_sizes" .untyped "h" ["jvb_instance"]
          [("app", "jitsi")]).desc.variableLabels.zip ["jvb-1"]) :=
  collect_histogram_total_and_sum.2 (NewJvbCollector "" "" 30) samplePF "jvb-1"
    ⟨"conference_sizes", "[2,3,5,1]"⟩
    (newMetric "conference_sizes" .untyped "h" ["jvb_instance"] [("app", "jitsi")])
    (PromMetric.hist "conference_sizes" 11 11 [(0, 2), (1, 5), (2, 10)]
      [("jvb_instance", "jvb-1")])
    (by decide) (by decide)

/-- Claim C6 fails as literally stated: on `"[18446744073709551615,1]"`
the parsed counts are `[2^64-1, 1]` but the reported total is `0` (the
`uint64` sum wrapped), not `2^64-1 + 1`. -/
theorem bucketsHelper_total_overflow_cex :
    parsedCounts "[18446744073709551615,1]".data = [18446744073709551615, 1] ∧
    (bucketsHelper "[18446744073709551615,1]").2 = 0 ∧
    (0 : Nat) ≠ 18446744073709551615 + 1 := by decide

/-! ## The stats cache -/

/-- The statsSets list reached by a sequence of updates (the statsSets
component of `runUpdates`). -/
def runSets (sets : List statsSet) (ops : List (Int × String × Stats)) :
    List statsSet :=
  ops.foldl (fun ss op => updateSets ss op.1 op.2.1 op.2.2) sets

lemma runUpdates_eq (c : JvbCollector) (ops : List (Int × String × Stats)) :
    runUpdates c ops = { c with statsSets := runSets c.statsSets ops } := by
  induction ops generalizing c with
  | nil => rfl
  | cons op ops ih =>
    show runUpdates (Update c op.1 op.2.1 op.2.2) ops = _
    rw [ih]
    rfl

lemma updateSets_ids (sets : List statsSet) (n : Int) (i : String) (st : Stats) :
    (updateSets sets n i st).map statsSet.jvbIdentifier =
      if i ∈ sets.map statsSet.jvbIdentifier then sets.map statsSet.jvbIdentifier
      else sets.map statsSet.jvbIdentifier ++ [i] := by
  induction sets with
  | nil => simp [updateSets]
  | cons s rest ih =>
    by_cases h : s.jvbIdentifier = i
    · simp [updateSets, h]
    · simp only [updateSets, if_neg h, List.map_cons, ih]
      by_cases hm : i ∈ rest.map statsSet.jvbIdentifier
      · simp [hm, List.mem_cons]
      · have hni : ¬ i ∈ s.jvbIdentifier :: rest.map statsSet.jvbIdentifier := by
          simp only [List.mem_cons]
          push_neg
          exact ⟨fun e => h e.symm, hm⟩
        simp [hm, hni]

lemma updateSets_nodup (sets : List statsSet) (n : Int) (i : String) (st : Stats)
    (h : (sets.map statsSet.jvbIdentifier).Nodup) :
    ((updateSets sets n i st).map statsSet.jvbIdentifier).Nodup := by
  rw [updateSets_ids]
  by_cases hm : i ∈ sets.map statsSet.jvbIdentifier
  · simpa [hm] using h
  · simp only [if_neg hm]
    simp [List.nodup_append, h, hm]

lemma find?_updateSets_self (sets : List statsSet) (n : Int) (i : String) (st : Stats) :
    (updateSets sets n i st).find? (fun s => s.jvbIdentifier == i) = some ⟨n, st, i⟩ := by
  induction sets with
  | nil => simp [updateSets]
  | cons s rest ih =>
    by_cases h : s.jvbIdentifier = i
    · simp [updateSets, h]
    · simp [updateSets, h, ih]

lemma find?_updateSets_other (sets : List statsSet) (n : Int) (i id : String)
    (st : Stats) (h : i ≠ id) :
    (updateSets sets n i st).find? (fun s => s.jvbIdentifier == id) =
      sets.find? (fun s => s.jvbIdentifier == id) := by
  induction sets with
  | nil => simp [updateSets, h]
  | cons s rest ih =>
    by_cases hs : s.jvbIdentifier = i
    · simp [updateSets, hs, h]
    · have hu : updateSets (s :: rest) n i st = s :: updateSets rest n i st := by
        simp [updateSets, hs]
      rw [hu]
      by_cases hid : s.jvbIdentifier = id
      · simp [hid]
      · simp [hid, ih]

lemma runSets_find (ops : List (Int × String × Stats)) (sets : List statsSet)
    (id : String) :
    (runSets sets ops).find? (fun s => s.jvbIdentifier == id) =
      match ops.reverse.find? (fun o => o.2.1 == id) with
      | some op => some ⟨op.1, op.2.2, id⟩
      | none => sets.find? (fun s => s.jvbIdentifier == id) := by
  induction ops generalizing sets with
  | nil => simp [runSets]
  | cons op ops ih =>
    show (runSets (updateSets sets op.1 op.2.1 op.2.2) ops).find? _ = _
    rw [ih]
    rw [List.reverse_cons, List.find?_append]
    cases hfo : ops.reverse.find? (fun o => o.2.1 == id) with
    | some op' => simp [hfo]
    | none =>
      by_cases hop : op.2.1 = id
      · simp only [hfo, Option.none_or]
        rw [List.find?_cons_of_pos _ (by simpa using hop)]
        subst hop
        simp [find?_updateSets_self]
      · simp only [hfo, Option.none_or]
        rw [List.find?_cons_of_neg _ (by simpa using hop)]
        simp [find?_updateSets_other sets op.1 op.2.1 id op.2.2 hop]

lemma runSets_nodup (ops : List (Int × String × Stats)) (sets : List statsSet)
    (h : (sets.map statsSet.jvbIdentifier).Nodup) :
    ((runSets sets ops).map statsSet.jvbIdentifier).Nodup := by
  induction ops generalizing sets with
  | nil => exact h
  | cons op ops ih => exact ih _ (updateSets_nodup _ _ _ _ h)

/-- Claim C3: after any sequence of `Update` calls on a freshly
constructed collector, the cache holds at most one snapshot per
identifier (the identifier list is duplicate-free), and the snapshot
stored for an identifier carries exactly the stats and the update time
of the last `Update` call for that identifier. -/
theorem update_last_wins (nspace subsystem : String) (retention : Int)
    (ops : List (Int × String × Stats)) (id : String) (op : Int × String × Stats)
    (h : (ops.filter fun o => o.2.1 == id).getLast? = some op) :
    (((runUpdates (NewJvbCollector nspace subsystem retention) ops).statsSets.map
        statsSet.jvbIdentifier).Nodup) ∧
    (runUpdates (NewJvbCollector nspace subsystem retention) ops).statsSets.find?
        (fun s => s.jvbIdentifier == id) = some ⟨op.1, op.2.2, id⟩ := by
  rw [List.filter_getLast?] at h
  constructor
  · rw [runUpdates_eq]
    exact runSets_nodup ops [] (by simp)
  · rw [runUpdates_eq]
    show (runSets _ ops).find? _ = _
    rw [runSets_find, h]

/-- Witness for claim C3: two updates to `"a"` and one to `"b"`; the
snapshot found for `"a"` is the second update's. -/
theorem update_last_wins_witness :
    (((runUpdates (NewJvbCollector "" "" 30)
        [(1, "a", ⟨[⟨"conferences", "1"⟩]⟩), (2, "a", ⟨[⟨"conferences", "2"⟩]⟩),
          (3, "b", ⟨[]⟩)]).statsSets.map statsSet.jvbIdentifier).Nodup) ∧
    (runUpdates (NewJvbCollector "" "" 30)
        [(1, "a", ⟨[⟨"conferences", "1"⟩]⟩), (2, "a", ⟨[⟨"conferences", "2"⟩]⟩),
          (3, "b", ⟨[]⟩)]).statsSets.find? (fun s => s.jvbIdentifier == "a") =
      some ⟨2, ⟨[⟨"conferences", "2"⟩]⟩, "a"⟩ :=
  update_last_wins "" "" 30
    [(1, "a", ⟨[⟨"conferences", "1"⟩]⟩), (2, "a", ⟨[⟨"conferences", "2"⟩]⟩),
      (3, "b", ⟨[]⟩)] "a" (2, "a", ⟨[⟨"conferences", "2"⟩]⟩) (by decide)

lemma flatMap_ite_filter {α β : Type} (l : List α) (P : α → Prop) [DecidablePred P]
    (f : α → List β) :
    (l.flatMap fun a => if P a then f a else []) =
      (l.filter fun a => decide (P a)).flatMap f := by
  induction l with
  | nil => simp
  | cons x xs ih =>
    by_cases h : P x
    · simp [h, ih]
    · simp [h, ih]

/-- Claim C2: a stored snapshot is considered by the collect call iff
`now - lastUpdated ≤ retention` at the time of the call, boundary
equality included (the comparison is `<=`), and `Collect` is exactly the
translation of the snapshots passing this filter. -/
theorem collect_freshness_filter (c : JvbCollector) (now : Int)
    (pf : String → Option ℚ) (s : statsSet) :
    (s ∈ SnapshotsFresherThan c now ↔
      s ∈ c.statsSets ∧ now - s.lastUpdated ≤ c.Retention) ∧
    Collect c now pf = (SnapshotsFresherThan c now).flatMap (collectSet c pf) := by
  constructor
  · simp [SnapshotsFresherThan, List.mem_filter]
  · exact flatMap_ite_filter c.statsSets _ _

/-! ## Fault isolation during translation -/

lemma collectSet_statsSets (c : JvbCollector) (X : List statsSet)
    (pf : String → Option ℚ) (set : statsSet) :
    collectSet { c with statsSets := X } pf set = collectSet c pf set := rfl

lemma Collect_statsSets (c : JvbCollector) (X : List statsSet) (now : Int)
    (pf : String → Option ℚ) :
    Collect { c with statsSets := X } now pf =
      X.flatMap fun set =>
        if now - set.lastUpdated ≤ c.Retention then collectSet c pf set else [] := rfl

lemma emitForStat_erase (c : JvbCollector) (pf : String → Option ℚ) (id : String)
    (pre post : List Stat) (s : Stat) (h : emitForStat c pf id s = []) :
    (pre ++ s :: post).flatMap (emitForStat c pf id) =
      (pre ++ post).flatMap (emitForStat c pf id) := by
  simp [h]

lemma Collect_erase (c : JvbCollector) (pf : String → Option ℚ) (now t : Int)
    (A B : List statsSet) (pre post : List Stat) (s : Stat) (id : String)
    (h : emitForStat c pf id s = []) :
    Collect { c with statsSets :=
        A ++ (⟨t, ⟨pre ++ s :: post⟩, id⟩ : statsSet) :: B } now pf =
      Collect { c with statsSets :=
        A ++ (⟨t, ⟨pre ++ post⟩, id⟩ : statsSet) :: B } now pf := by
  rw [Collect_statsSets, Collect_statsSets]
  simp only [List.flatMap_append, List.flatMap_cons]
  have hmid :
      (if now - (⟨t, ⟨pre ++ s :: post⟩, id⟩ : statsSet).lastUpdated ≤ c.Retention
        then collectSet c pf ⟨t, ⟨pre ++ s :: post⟩, id⟩ else []) =
      (if now - (⟨t, ⟨pre ++ post⟩, id⟩ : statsSet).lastUpdated ≤ c.Retention
        then collectSet c pf ⟨t, ⟨pre ++ post⟩, id⟩ else []) := by
    show (if now - t ≤ c.Retention then collectSet c pf ⟨t, ⟨pre ++ s :: post⟩, id⟩ else []) =
      (if now - t ≤ c.Retention then collectSet c pf ⟨t, ⟨pre ++ post⟩, id⟩ else [])
    by_cases hP : now - t ≤ c.Retention
    · rw [if_pos hP, if_pos hP]
      show (pre ++ s :: post).flatMap (emitForStat c pf id) =
        (pre ++ post).flatMap (emitForStat c pf id)
      exact emitForStat_erase c pf id pre post s h
    · rw [if_neg hP, if_neg hP]
  rw [hmid]

lemma emitOne_nil_of (c : JvbCollector) (pf : String → Option ℚ) (id : String)
    (s : Stat) (m : metric)
    (h : (isHistogramName s.Name = false ∧ pf s.Value = none) ∨
      m.desc.variableLabels.length ≠ 1) :
    emitOne c pf id s m = [] := by
  unfold emitOne
  by_cases h1 : m.name = c.NamePrefix ++ s.Name
  · rw [if_pos h1]
    rcases h with ⟨hh, hpf⟩ | hlen
    · simp [hh, hpf]
    · by_cases hh : isHistogramName s.Name
      · simp [hh, NewConstHistogram, hlen]
      · cases hpv : pf s.Value with
        | none => simp [hh, hpv]
        | some v => simp [hh, hpv, NewConstMetric, hlen]
  · rw [if_neg h1]

/-- Claim C4: translation is per-stat fault-isolated: when a stat's
value fails to parse as a number (the scalar path) or every catalog
entry's output-metric construction fails for it, that single stat
produces no output metric, and the collect output is exactly what it
would have been had the stat been absent — every other stat in the same
snapshot and every other stored snapshot is emitted unchanged; no
failure aborts the collect call (the model of `Collect` is total). -/
theorem collect_per_stat_fault_isolation (c : JvbCollector) (pf : String → Option ℚ)
    (now t : Int) (A B : List statsSet) (pre post : List Stat) (s : Stat) (id : String)
    (h : (isHistogramName s.Name = false ∧ pf s.Value = none) ∨
      ∀ m ∈ c.metrics, m.desc.variableLabels.length ≠ 1) :
    emitForStat c pf id s = [] ∧
    Collect { c with statsSets :=
        A ++ (⟨t, ⟨pre ++ s :: post⟩, id⟩ : statsSet) :: B } now pf =
      Collect { c with statsSets :=
        A ++ (⟨t, ⟨pre ++ post⟩, id⟩ : statsSet) :: B } now pf := by
  have hstat : emitForStat c pf id s = [] := by
    unfold emitForStat
    rw [List.flatMap_eq_nil_iff]
    intro m hm
    apply emitOne_nil_of
    rcases h with h | h
    · exact Or.inl h
    · exact Or.inr (h m hm)
  exact ⟨hstat, Collect_erase c pf now t A B pre post s id hstat⟩

/-- Witness for claim C4: the stat `participants = "not-a-number"` emits
nothing, and the collect output with it present equals the output with
it absent. -/
theorem collect_per_stat_fault_isolation_witness :
    emitForStat (NewJvbCollector "" "" 30) samplePF "jvb-1"
        ⟨"participants", "not-a-number"⟩ = [] ∧
    Collect { NewJvbCollector "" "" 30 with statsSets :=
        [] ++ (⟨0, ⟨[⟨"conferences", "2"⟩] ++ ⟨"participants", "not-a-number"⟩ ::
          [⟨"threads", "7"⟩]⟩, "jvb-1"⟩ : statsSet) :: [] } 0 samplePF =
      Collect { NewJvbCollector "" "" 30 with statsSets :=
        [] ++ (⟨0, ⟨[⟨"conferences", "2"⟩] ++ [⟨"threads", "7"⟩]⟩, "jvb-1"⟩ : statsSet) :: [] }
        0 samplePF :=
  collect_per_stat_fault_isolation (NewJvbCollector "" "" 30) samplePF 0 0 [] []
    [⟨"conferences", "2"⟩] [⟨"threads", "7"⟩] ⟨"participants", "not-a-number"⟩ "jvb-1"
    (Or.inl ⟨by decide, by decide⟩)

/-- Claim C8: a raw stat whose prefixed name matches no catalog entry
produces zero output metrics, and its presence does not change the
metrics emitted for any other stat or snapshot. -/
theorem collect_unmatched_stat_dropped (c : JvbCollector) (pf : String → Option ℚ)
    (now t : Int) (A B : List statsSet) (pre post : List Stat) (s : Stat) (id : String)
    (h : ∀ m ∈ c.metrics, m.name ≠ c.NamePrefix ++ s.Name) :
    emitForStat c pf id s = [] ∧
    Collect { c with statsSets :=
        A ++ (⟨t, ⟨pre ++ s :: post⟩, id⟩ : statsSet) :: B } now pf =
      Collect { c with statsSets :=
        A ++ (⟨t, ⟨pre ++ post⟩, id⟩ : statsSet) :: B } now pf := by
  have hstat : emitForStat c pf id s = [] := by
    unfold emitForStat
    rw [List.flatMap_eq_nil_iff]
    intro m hm
    unfold emitOne
    rw [if_neg (h m hm)]
  exact ⟨hstat, Collect_erase c pf now t A B pre post s id hstat⟩

/-- Witness for claim C8: `some_unknown_stat` matches no catalog entry;
it emits nothing and leaves the rest of the snapshot's output
unchanged. -/
theorem collect_unmatched_stat_dropped_witness :
    emitForStat (NewJvbCollector "" "" 30) samplePF "jvb-1"
        ⟨"some_unknown_stat", "5"⟩ = [] ∧
    Collect { NewJvbCollector "" "" 30 with statsSets :=
        [] ++ (⟨0, ⟨[⟨"participants", "5"⟩] ++ ⟨"some_unknown_stat", "5"⟩ ::
          [⟨"conferences", "2"⟩]⟩, "jvb-1"⟩ : statsSet) :: [] } 0 samplePF =
      Collect { NewJvbCollector "" "" 30 with statsSets :=
        [] ++ (⟨0, ⟨[⟨"participants", "5"⟩] ++ [⟨"conferences", "2"⟩]⟩, "jvb-1"⟩ : statsSet) :: [] }
        0 samplePF :=
  collect_unmatched_stat_dropped (NewJvbCollector "" "" 30) samplePF 0 0 [] []
    [⟨"participants", "5"⟩] [⟨"conferences", "2"⟩] ⟨"some_unknown_stat", "5"⟩ "jvb-1"
    (by decide)

/-! ## Labels and the read-only collect -/

lemma metrics_varLabels (nspace subsystem : String) (retention : Int) (m : metric)
    (hm : m ∈ (NewJvbCollector nspace subsystem retention).metrics) :
    m.desc.variableLabels = ["jvb_instance"] := by
  simp only [NewJvbCollector] at hm
  obtain ⟨e, _, he⟩ := List.mem_map.mp hm
  rw [← he]
  rfl

lemma emitOne_labels (c : JvbCollector) (pf : String → Option ℚ) (id : String)
    (stat : Stat) (m : metric) (pm : PromMetric)
    (hm : pm ∈ emitOne c pf id stat m) :
    pm.labels = m.desc.variableLabels.zip [id] := by
  unfold emitOne at hm
  by_cases h1 : m.name = c.NamePrefix ++ stat.Name
  · rw [if_pos h1] at hm
    by_cases hh : isHistogramName stat.Name
    · rw [if_pos hh] at hm
      unfold NewConstHistogram at hm
      by_cases h2 : m.desc.variableLabels.length = 1
      · simp [h2] at hm
        rw [hm]
        rfl
      · simp [h2] at hm
    · rw [if_neg hh] at hm
      cases hpv : pf stat.Value with
      | none => simp [hpv] at hm
      | some v =>
        rw [hpv] at hm
        unfold NewConstMetric at hm
        by_cases h2 : m.desc.variableLabels.length = 1
        · simp [h2] at hm
          rw [hm]
          rfl
        · simp [h2] at hm
  · simp [h1] at hm

lemma runUpdates_metrics (c : JvbCollector) (ops : List (Int × String × Stats)) :
    (runUpdates c ops).metrics = c.metrics := by
  rw [runUpdates_eq]

lemma runUpdates_Retention (c : JvbCollector) (ops : List (Int × String × Stats)) :
    (runUpdates c ops).Retention = c.Retention := by
  rw [runUpdates_eq]

/-- Claim C5 (amended): every output metric emitted by the collect call
carries exactly one variable label pair; its name is `"jvb_instance"`
(not `"instance"`) and its value is the `jvbIdentifier` of the fresh
snapshot it came from.  Stated for every collector reachable from
`NewJvbCollector` by a sequence of `Update` calls. -/
theorem collect_label_is_jvb_instance (nspace subsystem : String)
    (retention now : Int) (ops : List (Int × String × Stats))
    (pf : String → Option ℚ) (pm : PromMetric)
    (hpm : pm ∈ Collect (runUpdates (NewJvbCollector nspace subsystem retention) ops)
      now pf) :
    ∃ set ∈ (runUpdates (NewJvbCollector nspace subsystem retention) ops).statsSets,
      now - set.lastUpdated ≤ retention ∧
      pm.labels = [("jvb_instance", set.jvbIdentifier)] := by
  unfold Collect at hpm
  rw [List.mem_flatMap] at hpm
  obtain ⟨set, hset, hpm⟩ := hpm
  by_cases hfresh : now - set.lastUpdated ≤
      (runUpdates (NewJvbCollector nspace subsystem retention) ops).Retention
  · rw [if_pos hfresh] at hpm
    refine ⟨set, hset, ?_, ?_⟩
    · rw [runUpdates_Retention] at hfresh
      exact hfresh
    · unfold collectSet at hpm
      rw [List.mem_flatMap] at hpm
      obtain ⟨stat, _, hpm⟩ := hpm
      unfold emitForStat at hpm
      rw [List.mem_flatMap] at hpm
      obtain ⟨m, hmmem, hpm⟩ := hpm
      have hlab := emitOne_labels _ pf set.jvbIdentifier stat m pm hpm
      rw [runUpdates_metrics] at hmmem
      rw [hlab, metrics_varLabels nspace subsystem retention m hmmem]
      rfl
  · rw [if_neg hfresh] at hpm
    exact absurd hpm (List.not_mem_nil pm)

/-- Witness for claim C5: the one metric emitted for
`participants = "5"` carries the label pair `("jvb_instance", "jvb-1")`. -/
theorem collect_label_is_jvb_instance_witness :
    ∃ set ∈ (runUpdates (NewJvbCollector "" "" 30)
        [(0, "jvb-1", ⟨[⟨"participants", "5"⟩]⟩)]).statsSets,
      (0 : Int) - set.lastUpdated ≤ 30 ∧
      (PromMetric.const "participants" .gauge 5
        [("jvb_instance", "jvb-1")]).labels = [("jvb_instance", set.jvbIdentifier)] :=
  collect_label_is_jvb_instance "" "" 30 0
    [(0, "jvb-1", ⟨[⟨"participants", "5"⟩]⟩)] samplePF
    (PromMetric.const "participants" .gauge 5 [("jvb_instance", "jvb-1")])
    (by decide)

/-- Claim C5 fails as literally stated: the variable label attached by
the collector is named `"jvb_instance"`, not `"instance"`: a concrete
collect call emits exactly one metric, its label pairs are
`[("jvb_instance", "jvb-1")]`, and `"jvb_instance" ≠ "instance"`. -/
theorem collect_label_name_cex :
    (Collect (runUpdates (NewJvbCollector "" "" 30)
        [(0, "jvb-1", ⟨[⟨"participants", "5"⟩]⟩)]) 0 samplePF).map
        PromMetric.labels = [[("jvb_instance", "jvb-1")]] ∧
    "jvb_instance" ≠ "instance" := by decide

lemma Collect_singleton (c : JvbCollector) (set : statsSet) (now : Int)
    (pf : String → Option ℚ) (h : c.statsSets = [set]) :
    Collect c now pf =
      if now - set.lastUpdated ≤ c.Retention then collectSet c pf set else [] := by
  unfold Collect
  rw [h]
  simp

lemma Update_Retention (c : JvbCollector) (n : Int) (i : String) (st : Stats) :
    (Update c n i st).Retention = c.Retention := rfl

lemma collectSet_Update (c : JvbCollector) (n : Int) (i : String) (st : Stats)
    (pf : String → Option ℚ) (set : statsSet) :
    collectSet (Update c n i st) pf set = collectSet c pf set := rfl

/-- Claim C9: the collect call is a pure read of the cache — the state
component of `CollectStep` is the unchanged collector, since the method
body only reads `statsSets` and `metrics` and writes to the channel;
concretely, after an `Update` at time `t`, a collect at `now₁` with
`now₁ - t > retention` emits nothing while the snapshot stays stored
untouched, and after a further `Update` at `t'` a collect at `now₂` with
`now₂ - t' ≤ retention` emits that snapshot's translation again. -/
theorem collect_pure_read (nspace subsystem : String) (r t tp now₁ now₂ : Int)
    (id : String) (st stp : Stats) (pf : String → Option ℚ)
    (h₁ : ¬ now₁ - t ≤ r) (h₂ : now₂ - tp ≤ r) :
    (∀ (c : JvbCollector) (now : Int), (CollectStep c now pf).1 = c) ∧
    Collect (Update (NewJvbCollector nspace subsystem r) t id st) now₁ pf = [] ∧
    (Update (NewJvbCollector nspace subsystem r) t id st).statsSets = [⟨t, st, id⟩] ∧
    Collect (Update (Update (NewJvbCollector nspace subsystem r) t id st) tp id stp)
        now₂ pf =
      collectSet (NewJvbCollector nspace subsystem r) pf ⟨tp, stp, id⟩ := by
  refine ⟨fun c now => rfl, ?_, rfl, ?_⟩
  · rw [Collect_singleton _ ⟨t, st, id⟩ now₁ pf rfl, Update_Retention]
    simp [h₁, NewJvbCollector]
  · have hs₂ : (Update (Update (NewJvbCollector nspace subsystem r) t id st)
        tp id stp).statsSets = [⟨tp, stp, id⟩] := by
      show updateSets [⟨t, st, id⟩] tp id stp = [⟨tp, stp, id⟩]
      simp [updateSets]
    rw [Collect_singleton _ ⟨tp, stp, id⟩ now₂ pf hs₂, Update_Retention, Update_Retention]
    rw [collectSet_Update, collectSet_Update]
    have : (NewJvbCollector nspace subsystem r).Retention = r := rfl
    rw [this]
    simp [h₂]

/-- Witness for claim C9: update at 0, stale collect at 31 (retention
30) emits nothing and keeps the snapshot; after re-updating at 40, the
collect at 50 emits the snapshot's translation again. -/
theorem collect_pure_read_witness :
    (∀ (c : JvbCollector) (now : Int), (CollectStep c now samplePF).1 = c) ∧
    Collect (Update (NewJvbCollector "" "" 30) 0 "jvb-1"
        ⟨[⟨"participants", "5"⟩]⟩) 31 samplePF = [] ∧
    (Update (NewJvbCollector "" "" 30) 0 "jvb-1"
        ⟨[⟨"participants", "5"⟩]⟩).statsSets =
      [⟨0, ⟨[⟨"participants", "5"⟩]⟩, "jvb-1"⟩] ∧
    Collect (Update (Update (NewJvbCollector "" "" 30) 0 "jvb-1"
        ⟨[⟨"participants", "5"⟩]⟩) 40 "jvb-1" ⟨[⟨"participants", "5"⟩]⟩) 50 samplePF =
      collectSet (NewJvbCollector "" "" 30) samplePF
        ⟨40, ⟨[⟨"participants", "5"⟩]⟩, "jvb-1"⟩ :=
  collect_pure_read "" "" 30 0 40 31 50 "jvb-1" ⟨[⟨"participants", "5"⟩]⟩
    ⟨[⟨"participants", "5"⟩]⟩ samplePF (by decide) (by decide)
